import Mathlib

/-!
Verification of the login-modal form controller
(`src/resources/js/Components/auth/LoginModal.vue`).

The component composes four pieces of state and logic:
  * an Inertia form (`inertiaForm`, lines 59-67): field values, a server
    error mapping and a `processing` flag — the spec's RemoteFormState;
  * a vee-validate form (`useVeeForm`, lines 72-80): projected values and a
    locally displayed error mapping — the spec's ValidationStore;
  * four `watch` blocks (lines 84-106) forwarding the Inertia form's values
    and errors into the vee-validate store — the spec's Synchronizer;
  * `onSubmit` (lines 111-143) and `updateOpenState` (lines 146-151) — the
    spec's SubmissionOrchestrator;
plus the zod schema `formSchema` (lines 40-55) and the inline error blocks
of the template (lines 226-243).

Library collaborators (Inertia's `useForm`, vee-validate's `useForm`, zod's
email format check) are not part of this repository's sources; where their
behaviour matters it is modelled from the spec's contracts (§4.1, §4.2,
§6) and marked `Modelled from the spec:` on the definition.
-/

namespace LoginModal

/-- The three fields of the form: `email : string`, `password : string`,
`remember : boolean` (source lines 59-67). -/
structure Values where
  email : String
  password : String
  remember : Bool
  deriving Repr, DecidableEq

/-- An error mapping `field → string`, one optional message per field
(absent = no error for that field). -/
structure Errors where
  email : Option String
  password : Option String
  remember : Option String
  deriving Repr, DecidableEq

/-- The empty error mapping. -/
def emptyErrors : Errors := ⟨none, none, none⟩

/-- The Inertia form object (source lines 59-67): values, server errors and
the in-flight flag — the spec's RemoteFormState. -/
structure RemoteFormState where
  values : Values
  errors : Errors
  processing : Bool
  deriving Repr, DecidableEq

/-- The vee-validate store (source lines 72-80): projected values and the
locally displayed error mapping — the spec's ValidationState. -/
structure ValidationState where
  values : Values
  errors : Errors
  deriving Repr, DecidableEq

/-- The whole component state: both form stores plus the shared modal
visibility flag `modalStore.isLoginOpen` (source lines 38, 147, 156). -/
structure ComponentState where
  inertiaForm : RemoteFormState
  vee : ValidationState
  isLoginOpen : Bool
  deriving Repr, DecidableEq

/-- Initial state at mount: all fields at defaults (source lines 63-67),
the vee store bound to the same initial snapshot (source lines 75-79). -/
def initialState : ComponentState :=
  { inertiaForm := ⟨⟨"", "", false⟩, emptyErrors, false⟩
    vee := ⟨⟨"", "", false⟩, emptyErrors⟩
    isLoginOpen := false }

/-! ## The schema (`formSchema`, source lines 40-55) -/

/-- Split a character list at every occurrence of `c` (the pieces, in
order, with the separators dropped). -/
def splitOnChar (c : Char) : List Char → List (List Char)
  | [] => [[]]
  | x :: xs =>
    let r := splitOnChar c xs
    if x = c then [] :: r
    else
      match r with
      | [] => [[x]]
      | y :: ys => (x :: y) :: ys

/-- Modelled from the spec: zod's email format check is library code outside
this repository, and the spec (§1) scopes the schema to its contract only.
A string passes when it splits as `local@domain` with a nonempty local part
and a domain containing a dot. -/
def isEmailFormat (s : String) : Bool :=
  match splitOnChar '@' s.toList with
  | [l, d] => !l.isEmpty && !d.isEmpty && d.contains '.'
  | _ => false

/-- The email constraint of `formSchema` (source lines 42-49):
`z.string().email(...).min(1, ...)`, checks applied in order. -/
def emailError (s : String) : Option String :=
  if !(isEmailFormat s) then some "Please enter a valid email address"
  else if s.length < 1 then some "Email is required"
  else none

/-- The password constraint of `formSchema` (source lines 50-52):
`z.string().min(1, ...)` — the enforced minimum length is 1, while the
attached message speaks of 6 characters. -/
def passwordError (s : String) : Option String :=
  if s.length < 1 then some "Password must be at least 6 characters"
  else none

/-- `Schema.validate`: the compiled `formSchema` applied to a values
mapping (source lines 40-55; `remember` is `z.boolean().optional()` and
never produces an error). -/
def validate (v : Values) : Errors :=
  { email := emailError v.email
    password := passwordError v.password
    remember := none }

/-- Whether an error mapping reports any error. -/
def hasErrors (e : Errors) : Bool :=
  e.email.isSome || e.password.isSome || e.remember.isSome

/-! ## The Synchronizer (the `watch` blocks, source lines 84-106) -/

/-- A single user update to one field of the Inertia form (the `v-model`
bindings of the template write into `inertiaForm`, source lines 181, 198,
216). -/
inductive FieldUpdate where
  | email (s : String)
  | password (s : String)
  | remember (b : Bool)
  deriving Repr, DecidableEq

/-- Apply one field update to a values mapping. -/
def applyToValues (v : Values) : FieldUpdate → Values
  | .email s => { v with email := s }
  | .password s => { v with password := s }
  | .remember b => { v with remember := b }

/-- `setField`: the user writes one field into the Inertia form, and the
corresponding `watch` (source lines 84-95) fires, forwarding the new value
into the vee store via `setFieldValue`. -/
def setField (st : ComponentState) (u : FieldUpdate) : ComponentState :=
  { st with
    inertiaForm := { st.inertiaForm with values := applyToValues st.inertiaForm.values u }
    vee := { st.vee with values := applyToValues st.vee.values u } }

/-- A sequence of `setField` updates, oldest first. -/
def applyUpdates (st : ComponentState) (ops : List FieldUpdate) : ComponentState :=
  ops.foldl setField st

/-- `inertiaForm.errors` changes to `e2` and the error watch (source lines
99-106) fires: `if (newErrors) setErrors(newErrors)` — the guard is always
satisfied since the mapping is an object, and `setErrors` is, per the spec
contract for ValidationStore (Modelled from the spec: vee-validate's
`setErrors` is library code; §4.2 states it is a full replace of the local
error mapping), a full replacement. -/
def remoteErrorsChanged (st : ComponentState) (e2 : Errors) : ComponentState :=
  { st with
    inertiaForm := { st.inertiaForm with errors := e2 }
    vee := { st.vee with errors := e2 } }

/-! ## Submission (`onSubmit`, source lines 111-143) -/

/-- The transport collaborator's answer to one dispatched request:
the backend either accepts the credentials or rejects with an error
mapping (spec §6, Transport collaborator). -/
inductive TransportResult where
  | success
  | failure (errors : Errors)
  deriving Repr, DecidableEq

/-- A notification handed to the toast collaborator (source lines 121-123
and 131-136). -/
inductive Toast where
  | success (title description : String)
  | error (title description : String)
  deriving Repr, DecidableEq

/-- The externally observable effects of one submission attempt: the values
dispatched to the transport (each entry one network call), the emitted
toasts, and whether `onFinish` ran. -/
structure Effects where
  transportCalls : List Values
  toasts : List Toast
  finishRan : Bool
  deriving Repr, DecidableEq

/-- No observable effect. -/
def noEffects : Effects := ⟨[], [], false⟩

/-- The failure toast's description (source lines 133-135):
`errors.email || errors.password || "Check credentials and try again."`,
where JavaScript `||` skips `undefined` and the empty string. -/
def orElseStr (x : Option String) (y : String) : String :=
  match x with
  | some s => if s = "" then y else s
  | none => y

/-- Description of the `toast.error` emitted by `onError`
(source lines 131-136). -/
def failureDescription (e : Errors) : String :=
  orElseStr e.email (orElseStr e.password "Check credentials and try again.")

/-- `inertiaForm.post(route("login"), ...)` with its three callbacks
(source lines 113-142), resolved with the transport's answer `r`.

Modelled from the spec where the Inertia library's behaviour is involved
(§4.1): if `processing` is already true the call is rejected as a no-op
(no second transport call, state untouched); otherwise the current values
are dispatched, then exactly one of `onSuccess` / `onError` runs, then
`onFinish`, and `processing` returns to false.

  * `onSuccess` (source lines 117-124): hides the modal and emits the
    success toast; Inertia clears the form's errors on a successful visit,
    and the error watch forwards the cleared mapping to the vee store.
  * `onError` (source lines 126-137): Inertia populates
    `inertiaForm.errors` with the rejection mapping, the error watch
    forwards it to the vee store (source comment lines 128-129), then
    `inertiaForm.reset("password")` puts the password back to its default
    `""` (the value watch forwards that too), and the failure toast is
    emitted.
  * `onFinish` (source lines 138-141): empty body; it marks `finishRan`. -/
def postLogin (st : ComponentState) (r : TransportResult) : ComponentState × Effects :=
  if st.inertiaForm.processing then (st, noEffects)
  else
    let sent := st.inertiaForm.values
    match r with
    | .success =>
        ({ st with
            inertiaForm := { st.inertiaForm with errors := emptyErrors, processing := false }
            vee := { st.vee with errors := emptyErrors }
            isLoginOpen := false },
         ⟨[sent],
          [Toast.success "Login successful" "You have successfully logged in."],
          true⟩)
    | .failure e =>
        ({ st with
            inertiaForm :=
              { st.inertiaForm with
                  values := { st.inertiaForm.values with password := "" }
                  errors := e
                  processing := false }
            vee :=
              { st.vee with
                  values := { st.vee.values with password := "" }
                  errors := e } },
         ⟨[sent],
          [Toast.error "Login failed" (failureDescription e)],
          true⟩)

/-- `onSubmit = handleSubmit(...)` (source lines 111-143): vee-validate's
`handleSubmit` first runs the schema over the store's current values
(Modelled from the spec where the library is involved, §4.2 `gate`): when
any error results, the store's errors are set to them for display and the
inner callback never runs — no network call, no `onFinish`; when
validation passes the (empty) result replaces the store's errors and the
Inertia post proceeds. -/
def onSubmit (st : ComponentState) (r : TransportResult) : ComponentState × Effects :=
  let gateErrors := validate st.vee.values
  if hasErrors gateErrors then
    ({ st with vee := { st.vee with errors := gateErrors } }, noEffects)
  else
    postLogin { st with vee := { st.vee with errors := gateErrors } } r

/-! ## Visibility toggle (`updateOpenState`, source lines 146-151) -/

/-- `updateOpenState(open)` (source lines 146-151): writes the flag into the
modal store; when closing it also calls `inertiaForm.clearErrors()`, which
per the spec contract (§4.1) empties `errors` without touching `values` or
`processing` — and the error watch forwards the emptied mapping to the vee
store. -/
def updateOpenState (st : ComponentState) (b : Bool) : ComponentState :=
  if b then { st with isLoginOpen := true }
  else
    { st with
      isLoginOpen := false
      inertiaForm := { st.inertiaForm with errors := emptyErrors }
      vee := { st.vee with errors := emptyErrors } }

/-! ## Inline error blocks (template, source lines 226-243) -/

/-- JavaScript truthiness of an optional error message: present and
nonempty. -/
def truthy (x : Option String) : Bool :=
  match x with
  | some s => !(s = "")
  | none => false

/-- Text interpolation of an optional message: Vue renders a missing value
as the empty string. -/
def textOf (x : Option String) : String := x.getD ""

/-- The three inline error blocks at the bottom of the form, as rendered:
`some t` when the block is shown with text `t`, `none` when hidden. -/
structure InlineBlocks where
  emailBlock : Option String
  passwordBlock : Option String
  rememberBlock : Option String
  deriving Repr, DecidableEq

/-- The template's inline error blocks (source lines 226-243). The email
block (lines 226-231) is gated on `errors.email` and shows `errors.email`;
the password block (lines 232-237) is gated on `errors.password` but its
interpolation is `errors.remember`; the remember block (lines 238-243) is
gated on `errors.remember` and shows `errors.remember`. -/
def inlineErrorBlocks (e : Errors) : InlineBlocks :=
  { emailBlock := if truthy e.email then some (textOf e.email) else none
    passwordBlock := if truthy e.password then some (textOf e.remember) else none
    rememberBlock := if truthy e.remember then some (textOf e.remember) else none }

/-! ## Auxiliary definitions for the statements -/

/-- The failure-notification precedence as the spec phrases it: the
description is the error mapping's email message when that is a nonempty
string, otherwise its password message when that is a nonempty string,
otherwise the generic fallback text. Stated from the spec's words, to be
compared with `failureDescription` as derived from the source. -/
def claimFailureDescription (e : Errors) : String :=
  match e.email with
  | some s =>
      if s = "" then
        match e.password with
        | some t => if t = "" then "Check credentials and try again." else t
        | none => "Check credentials and try again."
      else s
  | none =>
      match e.password with
      | some t => if t = "" then "Check credentials and try again." else t
      | none => "Check credentials and try again."

/-- A concrete state with a submission already in flight. -/
def processingState : ComponentState :=
  { initialState with
    inertiaForm := { initialState.inertiaForm with processing := true } }

/-- A concrete idle state whose values pass the schema. -/
def readyState : ComponentState :=
  { inertiaForm := ⟨⟨"a@b.com", "secret", false⟩, emptyErrors, false⟩
    vee := ⟨⟨"a@b.com", "secret", false⟩, emptyErrors⟩
    isLoginOpen := true }

/-- A concrete sequence of user edits, for the mirroring witness. -/
def sampleUpdates : List FieldUpdate :=
  [FieldUpdate.email "a@b.com", FieldUpdate.password "pw", FieldUpdate.remember true]

/-! ## Claims -/

/-- Claim C1 (mirroring invariant): starting from any state in which the
vee store's values already mirror the Inertia form's values (as at mount),
after any sequence of `setField` updates the vee store's values again equal
the Inertia form's values field-for-field; moreover the Inertia form after
the sequence is exactly the pure remote update (values folded through the
edits, errors and processing untouched), so no write ever flows from the
vee store back into the Inertia form through the watchers. -/
theorem C1_mirroring (ops : List FieldUpdate) (st : ComponentState)
    (h : st.vee.values = st.inertiaForm.values) :
    (applyUpdates st ops).vee.values = (applyUpdates st ops).inertiaForm.values ∧
    (applyUpdates st ops).inertiaForm =
      { values := ops.foldl applyToValues st.inertiaForm.values
        errors := st.inertiaForm.errors
        processing := st.inertiaForm.processing } := by
  induction ops generalizing st with
  | nil => exact ⟨h, rfl⟩
  | cons u rest ih =>
      have h' : (setField st u).vee.values = (setField st u).inertiaForm.values := by
        simp [setField, h]
      simpa [applyUpdates, setField, List.foldl] using ih (setField st u) h'

/-- Witness for C1 at the mount state and a concrete edit sequence. -/
theorem C1_mirroring_witness :
    initialState.vee.values = initialState.inertiaForm.values ∧
    ((applyUpdates initialState sampleUpdates).vee.values =
        (applyUpdates initialState sampleUpdates).inertiaForm.values ∧
      (applyUpdates initialState sampleUpdates).inertiaForm =
        { values := sampleUpdates.foldl applyToValues initialState.inertiaForm.values
          errors := initialState.inertiaForm.errors
          processing := initialState.inertiaForm.processing }) :=
  ⟨rfl, C1_mirroring sampleUpdates initialState rfl⟩

/-- Claim C2 (error replacement): when the Inertia form's errors change to
a mapping `e2`, the error watch leaves the vee store's errors equal to `e2`
exactly, whatever mapping `e1` the vee store held before — a full replace
with no residual keys. -/
theorem C2_error_replace (st : ComponentState) (e1 e2 : Errors) :
    (remoteErrorsChanged { st with vee := { st.vee with errors := e1 } } e2).vee.errors = e2 ∧
    (remoteErrorsChanged { st with vee := { st.vee with errors := e1 } } e2).vee.errors.email
      = e2.email ∧
    (remoteErrorsChanged { st with vee := { st.vee with errors := e1 } } e2).vee.errors.password
      = e2.password ∧
    (remoteErrorsChanged { st with vee := { st.vee with errors := e1 } } e2).vee.errors.remember
      = e2.remember :=
  ⟨rfl, rfl, rfl, rfl⟩

/-- Claim C3 (no duplicate in-flight submission): submitting while
`processing` is true produces no observable effect at all — no transport
call, no toast, no finish callback — and leaves the Inertia form (values,
errors, processing) unchanged. -/
theorem C3_no_duplicate (st : ComponentState) (r : TransportResult)
    (h : st.inertiaForm.processing = true) :
    (onSubmit st r).2 = noEffects ∧ (onSubmit st r).1.inertiaForm = st.inertiaForm := by
  by_cases hg : hasErrors (validate st.vee.values) = true
  · simp [onSubmit, hg]
  · simp [onSubmit, postLogin, hg, h]

/-- Witness for C3 at a concrete in-flight state. -/
theorem C3_no_duplicate_witness :
    processingState.inertiaForm.processing = true ∧
    ((onSubmit processingState TransportResult.success).2 = noEffects ∧
      (onSubmit processingState TransportResult.success).1.inertiaForm
        = processingState.inertiaForm) :=
  ⟨rfl, C3_no_duplicate processingState TransportResult.success rfl⟩

/-- Claim C4 (gate blocks network): when the schema applied to the vee
store's current values reports any error, the submission attempt makes no
transport call and the finish callback does not run. -/
theorem C4_gate_blocks (st : ComponentState) (r : TransportResult)
    (h : hasErrors (validate st.vee.values) = true) :
    (onSubmit st r).2.transportCalls = [] ∧ (onSubmit st r).2.finishRan = false := by
  simp [onSubmit, h, noEffects]

/-- Witness for C4 at the mount state (empty email and password fail the
schema). -/
theorem C4_gate_blocks_witness :
    hasErrors (validate initialState.vee.values) = true ∧
    ((onSubmit initialState TransportResult.success).2.transportCalls = [] ∧
      (onSubmit initialState TransportResult.success).2.finishRan = false) :=
  ⟨rfl, C4_gate_blocks initialState TransportResult.success rfl⟩

/-- Claim C5 (sensitive-field reset with frame condition): on a Failure
outcome of an attempt that passed the gate, the password value is reset to
its default empty string while the email and remember values are exactly
what they were before. -/
theorem C5_password_reset (st : ComponentState) (e : Errors)
    (hgate : hasErrors (validate st.vee.values) = false)
    (hproc : st.inertiaForm.processing = false) :
    (onSubmit st (TransportResult.failure e)).1.inertiaForm.values.password = "" ∧
    (onSubmit st (TransportResult.failure e)).1.inertiaForm.values.email
      = st.inertiaForm.values.email ∧
    (onSubmit st (TransportResult.failure e)).1.inertiaForm.values.remember
      = st.inertiaForm.values.remember := by
  simp [onSubmit, postLogin, hgate, hproc]

/-- Witness for C5 at a concrete gate-passing state. -/
theorem C5_password_reset_witness :
    hasErrors (validate readyState.vee.values) = false ∧
    readyState.inertiaForm.processing = false ∧
    ((onSubmit readyState (TransportResult.failure
        ⟨none, some "Invalid credentials", none⟩)).1.inertiaForm.values.password = "" ∧
      (onSubmit readyState (TransportResult.failure
        ⟨none, some "Invalid credentials", none⟩)).1.inertiaForm.values.email
        = readyState.inertiaForm.values.email ∧
      (onSubmit readyState (TransportResult.failure
        ⟨none, some "Invalid credentials", none⟩)).1.inertiaForm.values.remember
        = readyState.inertiaForm.values.remember) :=
  ⟨rfl, rfl,
    C5_password_reset readyState ⟨none, some "Invalid credentials", none⟩ rfl rfl⟩

/-- Claim C6 (failure-notification precedence): on a Failure outcome with
error mapping `e`, the single emitted toast is the failure toast and its
description follows the precedence the spec states — the email message when
nonempty, else the password message when nonempty, else the generic
fallback. -/
theorem C6_failure_toast (st : ComponentState) (e : Errors)
    (hgate : hasErrors (validate st.vee.values) = false)
    (hproc : st.inertiaForm.processing = false) :
    (onSubmit st (TransportResult.failure e)).2.toasts
      = [Toast.error "Login failed" (claimFailureDescription e)] := by
  have hdesc : failureDescription e = claimFailureDescription e := by
    unfold failureDescription claimFailureDescription orElseStr
    cases e.email with
    | none => cases e.password with
      | none => rfl
      | some t => by_cases ht : t = "" <;> simp [ht]
    | some s =>
      cases e.password with
      | none => by_cases hs : s = "" <;> simp [hs]
      | some t => by_cases hs : s = "" <;> by_cases ht : t = "" <;> simp [hs, ht]
  simp [onSubmit, postLogin, hgate, hproc, hdesc]

/-- Witness for C6 at a concrete gate-passing state and a
password-only rejection. -/
theorem C6_failure_toast_witness :
    hasErrors (validate readyState.vee.values) = false ∧
    readyState.inertiaForm.processing = false ∧
    (onSubmit readyState (TransportResult.failure
        ⟨none, some "Invalid credentials", none⟩)).2.toasts
      = [Toast.error "Login failed"
          (claimFailureDescription ⟨none, some "Invalid credentials", none⟩)] :=
  ⟨rfl, rfl,
    C6_failure_toast readyState ⟨none, some "Invalid credentials", none⟩ rfl rfl⟩

/-- Claim C7 (success side effects): on a Success outcome of an attempt
that passed the gate, the visibility flag is set to closed, exactly one
success toast is emitted, and all field values are left unchanged. -/
theorem C7_success_effects (st : ComponentState)
    (hgate : hasErrors (validate st.vee.values) = false)
    (hproc : st.inertiaForm.processing = false) :
    (onSubmit st TransportResult.success).1.isLoginOpen = false ∧
    (onSubmit st TransportResult.success).2.toasts
      = [Toast.success "Login successful" "You have successfully logged in."] ∧
    (onSubmit st TransportResult.success).1.inertiaForm.values = st.inertiaForm.values := by
  simp [onSubmit, postLogin, hgate, hproc]

/-- Witness for C7 at a concrete gate-passing state. -/
theorem C7_success_effects_witness :
    hasErrors (validate readyState.vee.values) = false ∧
    readyState.inertiaForm.processing = false ∧
    ((onSubmit readyState TransportResult.success).1.isLoginOpen = false ∧
      (onSubmit readyState TransportResult.success).2.toasts
        = [Toast.success "Login successful" "You have successfully logged in."] ∧
      (onSubmit readyState TransportResult.success).1.inertiaForm.values
        = readyState.inertiaForm.values) :=
  ⟨rfl, rfl, C7_success_effects readyState rfl rfl⟩

/-- Claim C8 (close clears errors and nothing else): toggling visibility to
closed empties the Inertia form's errors (and the propagated vee errors)
while leaving values and processing untouched; closing twice equals closing
once; and toggling to open changes only the visibility flag. -/
theorem C8_close_clears (st : ComponentState) :
    (updateOpenState st false).inertiaForm.errors = emptyErrors ∧
    (updateOpenState st false).vee.errors = emptyErrors ∧
    (updateOpenState st false).inertiaForm.values = st.inertiaForm.values ∧
    (updateOpenState st false).inertiaForm.processing = st.inertiaForm.processing ∧
    updateOpenState (updateOpenState st false) false = updateOpenState st false ∧
    updateOpenState st true = { st with isLoginOpen := true } := by
  refine ⟨rfl, rfl, rfl, rfl, rfl, rfl⟩

/-- Claim C9: the template gates the second inline error block on
`errors.password` but interpolates `errors.remember` in it (source lines
232-237). With a password-only rejection the block is shown, yet its text
is the rendering of the absent remember error — the empty string — and not
the password message the block is keyed on. -/
theorem C9_password_block_mismatch :
    (inlineErrorBlocks ⟨none, some "Invalid credentials", none⟩).passwordBlock = some "" ∧
    (⟨none, some "Invalid credentials", none⟩ : Errors).password
      = some "Invalid credentials" ∧
    ("" : String) ≠ "Invalid credentials" :=
  ⟨rfl, rfl, by decide⟩

/-- Claim C10 (gate's actual password rule): the compiled schema's password
constraint enforces only length at least 1 — any nonempty password yields
no password error — while the error message attached to an empty password
speaks of a six-character minimum. -/
theorem C10_password_rule (v : Values) :
    (v.password ≠ "" → (validate v).password = none) ∧
    (v.password = "" → (validate v).password
      = some "Password must be at least 6 characters") := by
  constructor
  · intro h
    have hd : v.password.data ≠ [] := fun hd => h (String.ext hd)
    have hlen : 0 < v.password.length :=
      Nat.pos_of_ne_zero fun h0 => hd (List.length_eq_zero.mp h0)
    simp [validate, passwordError, Nat.not_lt.mpr hlen]
  · intro h
    simp [validate, passwordError, h]

/-- Witness for C10: a one-character password passes, the empty password
fails with the six-character message. -/
theorem C10_password_rule_witness :
    ((⟨"a@b.com", "x", false⟩ : Values).password ≠ "" ∧
      (validate ⟨"a@b.com", "x", false⟩).password = none) ∧
    ((⟨"a@b.com", "", false⟩ : Values).password = "" ∧
      (validate ⟨"a@b.com", "", false⟩).password
        = some "Password must be at least 6 characters") :=
  ⟨⟨by decide, (C10_password_rule ⟨"a@b.com", "x", false⟩).1 (by decide)⟩,
    ⟨rfl, (C10_password_rule ⟨"a@b.com", "", false⟩).2 rfl⟩⟩

end LoginModal
